import Mathlib

/-
Verification of the wiring dependency-injection registry.

This development shallowly embeds the repository code:
- the Module side (ModuleType.__init__, _collect_resources, __call__, and the
  default_provider property) is translated directly from
  src/wiring/module/module_type.py;
- the Provider side (the validation pipeline of provider_type.py, which is not
  part of the available sources) is modelled from the specification, with the
  behaviour at the points the specification leaves open (or contradicts itself
  on) fixed by the repository test suite in
  src/wiring/provider/test_provider.py and the error classes declared in
  src/wiring/provider/errors.py.

Python classes are represented by ids together with the ids of their proper
ancestors; mutable binding state becomes explicit data; fallible construction
returns Except.  All definitions are computable so that concrete scenarios
evaluate by decide or rfl.
-/

deriving instance DecidableEq for Except

namespace Wiring

/-- Python name.startswith with an underscore argument, evaluated over the
character list of the name. -/
def startsUnderscore (s : String) : Bool :=
  match s.data with
  | [] => false
  | c :: _ => c == '_'

/-- A Python type: its own id plus the ids of its proper ancestors (its mro
tail).  Two types are the same class exactly when they are equal. -/
structure Ty where
  id : Nat
  ancestors : List Nat
deriving DecidableEq, Repr

/-- Python issubclass for our type model: a class is a subclass of itself and
of each of its ancestors. -/
def issubclass (a b : Ty) : Bool :=
  a.id == b.id || a.ancestors.contains b.id

/-- The single covariant compatibility predicate of the specification: an
offered type satisfies a required type iff the offered type is the required
type or a descendant of it. -/
def is_compatible (required offered : Ty) : Bool :=
  issubclass offered required

/-- The binding state of a module resource: the attribute name and the id of
the owning module. -/
structure MBinding where
  name : String
  module : Nat
deriving DecidableEq, Repr

/-- A module resource that is bound to its owning module. -/
structure MRes where
  name : String
  type : Ty
  module : Nat
deriving DecidableEq, Repr

/-- A value that can appear in a module class body (or as an annotation):
a ModuleResource instance (with optional binding state), a PrivateResource
instance, an OverridingResource instance, a plain type, or anything else
(an int, a function, ...). -/
inductive ModDctValue where
  | moduleRes (t : Ty) (binding : Option MBinding)
  | privateRes (t : Ty)
  | overridingRes (t : Ty)
  | typ (t : Ty)
  | other (tag : Nat)
deriving DecidableEq, Repr

/-- The errors raised by module construction, instantiation and the
default_provider property (wiring/module/errors.py as used by
module_type.py).  Each constructor carries the structured context the Python
exception stores. -/
inductive ModuleError where
  | cannotUseExistingModuleResource (module : Nat) (name : String) (t : Ty)
      (binding : MBinding)
  | cannotDefinePrivateResourceInModule (module : Nat) (name : String) (t : Ty)
  | cannotDefineOverridingResourceInModule (module : Nat) (name : String)
      (t : Ty)
  | invalidModuleResourceAnnotationInModule (module : Nat) (name : String)
  | invalidPrivateResourceAnnotationInModule (module : Nat) (name : String)
  | invalidOverridingResourceAnnotationInModule (module : Nat) (name : String)
  | invalidAttributeAnnotationInModule (module : Nat) (name : String) (t : Ty)
  | modulesCannotBeInstantiated (module : Nat)
  | defaultProviderIsNotAProvider (module : Nat) (notProvider : Nat)
  | cannotUseBaseProviderAsDefaultProvider (module : Nat)
  | defaultProviderProvidesToAnotherModule (module : Nat) (provider : Nat)
deriving DecidableEq, Repr

/-- First loop of ModuleType._collect_resources (module_type.py lines 55-72):
walk the class body dict in order; skip names starting with an underscore;
a bound ModuleResource raises CannotUseExistingModuleResource (before any
rebinding happens, so the error carries the resource with its original
binding intact); an unbound ModuleResource is bound to this module; Private
and Overriding resource instances are rejected; a plain type synthesizes a
bound module resource; every other value is silently skipped. -/
def collect_dct (selfId : Nat) :
    List (String × ModDctValue) → List MRes → Except ModuleError (List MRes)
  | [], acc => .ok acc
  | (name, v) :: rest, acc =>
    if startsUnderscore name then collect_dct selfId rest acc
    else
      match v with
      | .moduleRes t (some b) =>
          .error (.cannotUseExistingModuleResource selfId name t b)
      | .moduleRes t none =>
          collect_dct selfId rest (acc ++ [⟨name, t, selfId⟩])
      | .privateRes t =>
          .error (.cannotDefinePrivateResourceInModule selfId name t)
      | .overridingRes t =>
          .error (.cannotDefineOverridingResourceInModule selfId name t)
      | .typ t => collect_dct selfId rest (acc ++ [⟨name, t, selfId⟩])
      | .other _ => collect_dct selfId rest acc

/-- Second loop of ModuleType._collect_resources (module_type.py lines 74-87):
walk the annotations; skip underscore names and names already collected as
resources; resource-instance annotations and plain type annotations raise the
respective errors; any other annotation value is silently ignored. -/
def check_annotations (selfId : Nat) (resources : List MRes) :
    List (String × ModDctValue) → Except ModuleError Unit
  | [] => .ok ()
  | (name, v) :: rest =>
    if startsUnderscore name || (resources.find? fun r => r.name == name).isSome
    then check_annotations selfId resources rest
    else
      match v with
      | .moduleRes _ _ =>
          .error (.invalidModuleResourceAnnotationInModule selfId name)
      | .privateRes _ =>
          .error (.invalidPrivateResourceAnnotationInModule selfId name)
      | .overridingRes _ =>
          .error (.invalidOverridingResourceAnnotationInModule selfId name)
      | .typ t => .error (.invalidAttributeAnnotationInModule selfId name t)
      | .other _ => check_annotations selfId resources rest

/-- ModuleType._collect_resources: both loops in sequence. -/
def collect_resources (selfId : Nat) (dct : List (String × ModDctValue))
    (annotations : List (String × ModDctValue)) :
    Except ModuleError (List MRes) :=
  match collect_dct selfId dct [] with
  | .error e => .error e
  | .ok resources =>
    match check_annotations selfId resources annotations with
    | .error e => .error e
    | .ok _ => .ok resources

/-- A constructed module: id, its frozen resource table, and the optional
default provider (stored as the provider class id). -/
structure ModuleV where
  id : Nat
  resources : List MRes
  defaultProvider : Option Nat
deriving DecidableEq, Repr

/-- ModuleType.__init__: collect resources from the class body, start with no
default provider. -/
def defineModule (selfId : Nat) (dct : List (String × ModDctValue))
    (annotations : List (String × ModDctValue)) :
    Except ModuleError ModuleV :=
  match collect_resources selfId dct annotations with
  | .error e => .error e
  | .ok resources => .ok ⟨selfId, resources, none⟩

/-- ModuleType.__call__ (module_type.py lines 49-50): calling a module class
with any arguments raises ModulesCannotBeInstantiated.  The result type Empty
makes it impossible for a call to produce an instance; since the embedding is
pure and the module value is only an input, the resource table and default
provider of the module are untouched by a call. -/
def moduleCall (m : ModuleV) (args : List Nat) (kwargs : List (String × Nat)) :
    Except ModuleError Empty :=
  match args, kwargs with
  | _, _ => .error (.modulesCannotBeInstantiated m.id)

/-- A candidate value assigned to the default_provider property: something
that is not a provider class at all, the abstract base Provider class itself,
or a concrete provider class (with the id of the module it provides for). -/
inductive DPCandidate where
  | notProvider (tag : Nat)
  | baseProvider
  | provider (id : Nat) (module : Nat)
deriving DecidableEq, Repr

/-- The default_provider setter (module_type.py lines 112-123): a value that
is not a ProviderType instance raises DefaultProviderIsNotAProvider; the base
Provider class (which is a ProviderType instance, so it passes the first
check) raises CannotUseBaseProviderAsDefaultProvider; a provider whose module
is not this module raises DefaultProviderProvidesToAnotherModule; otherwise
the provider is stored.  An error result leaves the module value unchanged:
the caller keeps the original ModuleV. -/
def set_default_provider (m : ModuleV) (c : DPCandidate) :
    Except ModuleError ModuleV :=
  match c with
  | .notProvider tag => .error (.defaultProviderIsNotAProvider m.id tag)
  | .baseProvider => .error (.cannotUseBaseProviderAsDefaultProvider m.id)
  | .provider pid pmod =>
      if pmod != m.id then
        .error (.defaultProviderProvidesToAnotherModule m.id pid)
      else .ok { m with defaultProvider := some pid }

/-- The default_provider getter (module_type.py lines 108-110). -/
def get_default_provider (m : ModuleV) : Option Nat :=
  m.defaultProvider

/-- The kind of a provider-owned resource: private, or overriding a module
resource (carrying the overridden module resource, as the Python
OverridingResource carries a reference to it). -/
inductive PResKind where
  | priv
  | overriding (overrides : MRes)
deriving DecidableEq, Repr

/-- A provider resource bound to its owning provider. -/
structure PRes where
  name : String
  type : Ty
  provider : Nat
  kind : PResKind
deriving DecidableEq, Repr

/-- True for a private provider resource. -/
def PRes.isPrivate (p : PRes) : Bool :=
  match p.kind with
  | .priv => true
  | .overriding _ => false

/-- A resource of either owner kind, as stored in provider method tables and
carried by provider errors. -/
inductive AnyRes where
  | m (r : MRes)
  | p (r : PRes)
deriving DecidableEq, Repr

/-- The name of a resource of either kind. -/
def AnyRes.name : AnyRes → String
  | .m r => r.name
  | .p r => r.name

/-- The declared type of a resource of either kind. -/
def AnyRes.type : AnyRes → Ty
  | .m r => r.type
  | .p r => r.type

/-- A provider method parameter annotation: a plain type, a bound module
resource instance, a bound provider resource instance, or something that is
not a valid type reference at all (such as the literal True). -/
inductive Annotation where
  | typ (t : Ty)
  | moduleRes (r : MRes)
  | providerRes (r : PRes)
  | other (tag : Nat)
deriving DecidableEq, Repr

/-- The signature of a candidate provider method: its non-receiver parameters
(each with an optional annotation) and its optional return type annotation. -/
structure Method where
  params : List (String × Option Annotation)
  returnType : Option Ty
deriving DecidableEq, Repr

/-- A Resource instance appearing in a provider class body: the three unbound
construction forms Resource(t), Resource(t, private=True),
Resource(t, override=True), or an already-bound module or provider
resource reached through another class. -/
inductive ResInstance where
  | unboundModule (t : Ty)
  | unboundPrivate (t : Ty)
  | unboundOverriding (t : Ty)
  | boundModule (r : MRes)
  | boundProvider (r : PRes)
deriving DecidableEq, Repr

/-- A value assigned in a provider class body: a Resource instance, a plain
type (an implicit or explicit TypeAlias), a callable, or anything else. -/
inductive PDctValue where
  | res (v : ResInstance)
  | typ (t : Ty)
  | method (m : Method)
  | other (tag : Nat)
deriving DecidableEq, Repr

/-- The definition-time provider errors (wiring/provider/errors.py), each
carrying the structured context its Python counterpart stores. -/
inductive ProviderError where
  | missingProviderMethod (resource : AnyRes)
  | providerMethodNotCallable (resource : AnyRes)
  | providerMethodMissingReturnType (resource : AnyRes)
  | providerMethodReturnTypeMismatch (resource : AnyRes) (mismatched : Ty)
  | providerMethodParameterMissingType (provides : AnyRes)
      (parameter : String)
  | providerMethodParameterUnrelatedName (provides : AnyRes)
      (parameter : String) (t : Ty)
  | providerMethodParameterInvalidType (provides : AnyRes)
      (parameter : String) (tag : Nat)
  | providerMethodParameterMatchesResourceNameButNotType (provides : AnyRes)
      (parameter : String) (refersTo : AnyRes) (mismatched : Ty)
  | cannotDependOnResourceFromAnotherProvider (target : AnyRes)
      (parameterResource : PRes) (parameterName : String)
  | overridingResourceIncompatibleType (resource : PRes)
  | overridingResourceNameDoesntMatchModuleResource (t : Ty) (name : String)
  | privateResourceCannotOccludeModuleResource (resource : PRes)
  | cannotDefinePublicResourceInProvider (name : String) (t : Ty)
  | resourceDefinitionCannotReferOtherProvidersResource (name : String)
      (resource : PRes)
  | invalidProviderAttributeName (name : String)
  | invalidProviderAttribute (name : String) (tag : Nat)
  | incompatibleResourceTypeForInheritedResource (name : String) (t : Ty)
  | baseProviderProvidesFromADifferentModule (base : Nat) (module : Nat)
  | providerModuleCantBeChanged (provider : Nat) (assignedTo : Nat)
deriving DecidableEq, Repr

/-- The intermediate output of scanning a provider class body: the provider
resources declared in it, the callables keyed by attribute name, and the
leftover unrecognized values (name, tag). -/
structure Collected where
  own : List PRes
  raw : List (String × Method)
  leftovers : List (String × Nat)
deriving DecidableEq, Repr

/-- Modelled from the spec: step 2 of the provider validation pipeline
(own-resource collection) for a plain type assigned under a name, from
provider_type.py which is not among the available sources.  A name that
coincides with a module resource becomes an overriding resource, checked with
the compatibility predicate against the module resource type
(OverridingResourceIncompatibleType otherwise); a fresh name becomes a
private resource.  A name that redeclares an inherited provider resource
refines it and must narrow its type
(IncompatibleResourceTypeForInheritedResource otherwise), as exercised by
test_provider_subclass_must_refine_provider_method_if_refining_private_resource. -/
def classifyTypeAlias (selfId : Nat) (mod : ModuleV) (inherited : List PRes)
    (acc : Collected) (name : String) (t : Ty) :
    Except ProviderError Collected :=
  match inherited.find? fun r => r.name == name with
  | some r0 =>
      if is_compatible r0.type t then
        match mod.resources.find? fun r => r.name == name with
        | some m =>
            if is_compatible m.type t then
              .ok { acc with own := acc.own ++ [⟨name, t, selfId, .overriding m⟩] }
            else .error (.overridingResourceIncompatibleType
              ⟨name, t, selfId, .overriding m⟩)
        | none =>
            .ok { acc with own := acc.own ++ [⟨name, t, selfId, .priv⟩] }
      else .error (.incompatibleResourceTypeForInheritedResource name t)
  | none =>
      match mod.resources.find? fun r => r.name == name with
      | some m =>
          if is_compatible m.type t then
            .ok { acc with own := acc.own ++ [⟨name, t, selfId, .overriding m⟩] }
          else .error (.overridingResourceIncompatibleType
            ⟨name, t, selfId, .overriding m⟩)
      | none =>
          .ok { acc with own := acc.own ++ [⟨name, t, selfId, .priv⟩] }

/-- Modelled from the spec: step 2 of the pipeline for a Resource instance
assigned in a provider body.  An unbound private resource is bound unless its
name occludes a module resource; an unbound overriding resource requires a
same-named module resource and a compatible (narrower or equal) type; an
unbound plain module resource is rejected
(CannotDefinePublicResourceInProvider); a bound module resource of any module
is likewise rejected, and a bound resource of another provider is rejected
(ResourceDefinitionCannotReferOtherProvidersResource), in both cases without
touching the original binding, which the error carries verbatim. -/
def classifyResInstance (selfId : Nat) (mod : ModuleV) (acc : Collected)
    (name : String) (ri : ResInstance) : Except ProviderError Collected :=
  match ri with
  | .unboundModule t => .error (.cannotDefinePublicResourceInProvider name t)
  | .boundModule r => .error (.cannotDefinePublicResourceInProvider name r.type)
  | .boundProvider r =>
      .error (.resourceDefinitionCannotReferOtherProvidersResource name r)
  | .unboundPrivate t =>
      if (mod.resources.find? fun r => r.name == name).isSome then
        .error (.privateResourceCannotOccludeModuleResource
          ⟨name, t, selfId, .priv⟩)
      else .ok { acc with own := acc.own ++ [⟨name, t, selfId, .priv⟩] }
  | .unboundOverriding t =>
      match mod.resources.find? fun r => r.name == name with
      | some m =>
          if is_compatible m.type t then
            .ok { acc with own := acc.own ++ [⟨name, t, selfId, .overriding m⟩] }
          else .error (.overridingResourceIncompatibleType
            ⟨name, t, selfId, .overriding m⟩)
      | none => .error (.overridingResourceNameDoesntMatchModuleResource t name)

/-- Modelled from the spec: classification of one provider class-body entry.
Underscore names are skipped; the reserved names module and resources are
rejected (InvalidProviderAttributeName); callables are collected by name;
values that are neither resource declarations nor callables are set aside and
rejected later (InvalidProviderAttribute) unless they occupy the slot of a
required provider method, in which case method discovery reports
ProviderMethodNotCallable, as exercised by test_provider_method_not_callable. -/
def classifyEntry (selfId : Nat) (mod : ModuleV) (inherited : List PRes)
    (acc : Collected) (name : String) (v : PDctValue) :
    Except ProviderError Collected :=
  if startsUnderscore name then .ok acc
  else if name == "module" || name == "resources" then
    .error (.invalidProviderAttributeName name)
  else
    match v with
    | .method m => .ok { acc with raw := acc.raw ++ [(name, m)] }
    | .other tag => .ok { acc with leftovers := acc.leftovers ++ [(name, tag)] }
    | .typ t => classifyTypeAlias selfId mod inherited acc name t
    | .res ri => classifyResInstance selfId mod acc name ri

/-- Modelled from the spec: step 2 of the pipeline over the whole class body,
fail-fast in declaration order. -/
def collectOwn (selfId : Nat) (mod : ModuleV) (inherited : List PRes) :
    List (String × PDctValue) → Collected → Except ProviderError Collected
  | [], acc => .ok acc
  | (name, v) :: rest, acc =>
    match classifyEntry selfId mod inherited acc name v with
    | .error e => .error e
    | .ok acc2 => collectOwn selfId mod inherited rest acc2

/-- A validated provider method: the resource it is keyed under (the module
resource for an override, per
test_provider_collects_provider_method_when_overriden_resource_is_present),
its declared return type, and its resolved dependency map. -/
structure ProviderMethodV where
  resource : AnyRes
  returnType : Ty
  dependencies : List (String × AnyRes)
deriving DecidableEq, Repr

/-- A fully validated provider: its module binding, its own (private and
overriding) resources, the raw callables table it exposes to subclasses, and
its validated provider methods. -/
structure ProviderV where
  id : Nat
  module : ModuleV
  ownResources : List PRes
  rawMethods : List (String × Method)
  methods : List ProviderMethodV
deriving DecidableEq, Repr

/-- One resource a provider is responsible for: the resource reported in
errors, the resource the method is keyed under, and the type the method
return annotation must satisfy. -/
structure Resp where
  display : AnyRes
  key : AnyRes
  reqType : Ty
deriving DecidableEq, Repr

/-- Modelled from the spec: the responsibility entry for one module resource.
When the provider declares an overriding resource of the same name, errors
report the overriding resource, the method is keyed to the module resource,
and the required type is the narrower override type (step 4 of the
pipeline); otherwise the module resource itself is used throughout. -/
def respForModuleRes (own : List PRes) (m : MRes) : Resp :=
  match own.find? fun p => p.name == m.name with
  | some p =>
      match p.kind with
      | .overriding _ => ⟨.p p, .m m, p.type⟩
      | .priv => ⟨.m m, .m m, m.type⟩
  | none => ⟨.m m, .m m, m.type⟩

/-- Modelled from the spec: every resource the provider is responsible for:
each module resource (through its override when present), then each of its
own private resources. -/
def responsibilities (mod : ModuleV) (own : List PRes) : List Resp :=
  mod.resources.map (respForModuleRes own) ++
    (own.filter PRes.isPrivate).map fun p => ⟨.p p, .p p, p.type⟩

/-- Modelled from the spec: lookup of a visible resource by name, own
resources first, then the module resources. -/
def findVisibleByName (mod : ModuleV) (own : List PRes) (name : String) :
    Option AnyRes :=
  match own.find? fun p => p.name == name with
  | some p => some (.p p)
  | none =>
      match mod.resources.find? fun r => r.name == name with
      | some r => some (.m r)
      | none => none

/-- Modelled from the spec: step 5 of the pipeline (parameter resolution) for
one annotated parameter, from provider_type.py which is not among the
available sources, with the resolution order fixed by the repository tests: a
parameter annotated with a bound resource instance binds directly to that
resource (rejecting a resource of another provider with
CannotDependOnResourceFromAnotherProvider, and restricting module resources
to this module); a parameter annotated with a plain type binds by parameter
name to a visible resource whose type it must be a supertype of or equal to
(ProviderMethodParameterMatchesResourceNameButNotType otherwise), and an
unmatched name fails with ProviderMethodParameterUnrelatedName even when the
annotated type equals the type of a visible resource, as exercised by
test_provider_method_must_either_match_by_resource_or_by_name; an annotation
that is not a type reference fails with
ProviderMethodParameterInvalidTypeAnnotation. -/
def resolveParam (selfId : Nat) (mod : ModuleV) (own : List PRes)
    (target : AnyRes) (pname : String) (a : Annotation) :
    Except ProviderError AnyRes :=
  match a with
  | .moduleRes r =>
      if r.module == mod.id then .ok (.m r)
      else .error (.providerMethodParameterUnrelatedName target pname r.type)
  | .providerRes r =>
      if r.provider == selfId then .ok (.p r)
      else .error (.cannotDependOnResourceFromAnotherProvider target r pname)
  | .typ t =>
      match findVisibleByName mod own pname with
      | some dep =>
          if is_compatible t dep.type then .ok dep
          else .error (.providerMethodParameterMatchesResourceNameButNotType
            target pname dep t)
      | none => .error (.providerMethodParameterUnrelatedName target pname t)
  | .other tag =>
      .error (.providerMethodParameterInvalidType target pname tag)

/-- Modelled from the spec: step 5 over the whole parameter list, fail-fast;
a parameter with no annotation fails with
ProviderMethodParameterMissingTypeAnnotation. -/
def resolveParams (selfId : Nat) (mod : ModuleV) (own : List PRes)
    (target : AnyRes) :
    List (String × Option Annotation) →
    Except ProviderError (List (String × AnyRes))
  | [] => .ok []
  | (pname, none) :: _ =>
      .error (.providerMethodParameterMissingType target pname)
  | (pname, some a) :: rest =>
    match resolveParam selfId mod own target pname a with
    | .error e => .error e
    | .ok dep =>
      match resolveParams selfId mod own target rest with
      | .error e => .error e
      | .ok deps => .ok ((pname, dep) :: deps)

/-- Modelled from the spec: steps 4 and 5 of the pipeline for one provider
method: the return type annotation must exist
(ProviderMethodMissingReturnTypeAnnotation) and satisfy the compatibility
predicate against the required type of the produced resource, which for an
overriding resource is the override type, not the module resource type
(ProviderMethodReturnTypeMismatch otherwise); then every parameter is
resolved. -/
def validateMethod (selfId : Nat) (mod : ModuleV) (own : List PRes)
    (resp : Resp) (mth : Method) : Except ProviderError ProviderMethodV :=
  match mth.returnType with
  | none => .error (.providerMethodMissingReturnType resp.display)
  | some rt =>
      if is_compatible resp.reqType rt then
        match resolveParams selfId mod own resp.display mth.params with
        | .error e => .error e
        | .ok deps => .ok ⟨resp.key, rt, deps⟩
      else .error (.providerMethodReturnTypeMismatch resp.display rt)

/-- Modelled from the spec: step 3 of the pipeline (method discovery): for
every resource the provider is responsible for, a callable named
provide_<resource name> must be found among the collected callables
(inherited ones included); a leftover non-callable value of that name fails
with ProviderMethodNotCallable, and absence fails with
MissingProviderMethod; a found callable is validated by steps 4 and 5. -/
def discoverGo (selfId : Nat) (mod : ModuleV) (own : List PRes)
    (raw : List (String × Method)) (leftovers : List (String × Nat)) :
    List Resp → Except ProviderError (List ProviderMethodV)
  | [] => .ok []
  | resp :: rest =>
    match raw.lookup ("provide_" ++ resp.key.name) with
    | some mth =>
      match validateMethod selfId mod own resp mth with
      | .error e => .error e
      | .ok pm =>
        match discoverGo selfId mod own raw leftovers rest with
        | .error e => .error e
        | .ok pms => .ok (pm :: pms)
    | none =>
      if (leftovers.lookup ("provide_" ++ resp.key.name)).isSome then
        .error (.providerMethodNotCallable resp.display)
      else .error (.missingProviderMethod resp.display)

/-- Modelled from the spec: an inherited provider resource is re-owned by the
subclass, as exercised by
test_a_provider_subclass_collects_parent_provider_resources. -/
def reown (selfId : Nat) (p : PRes) : PRes :=
  { p with provider := selfId }

/-- Modelled from the spec: the combined own-resource table of a provider:
the inherited resources that were not redeclared, followed by the newly
declared ones. -/
def mergeOwn (inherited newOwn : List PRes) : List PRes :=
  (inherited.filter fun r => (newOwn.find? fun n => n.name == r.name).isNone)
    ++ newOwn

/-- Modelled from the spec: steps 2 through 7 of the validation pipeline
given the already-resolved inheritance data: collect the class body, merge
with the inherited tables, discover and validate one method per
responsibility, and finally reject any leftover unrecognized attribute
(InvalidProviderAttribute). -/
def build (selfId : Nat) (mod : ModuleV) (inherited : List PRes)
    (baseRaw : List (String × Method)) (dct : List (String × PDctValue)) :
    Except ProviderError ProviderV :=
  match collectOwn selfId mod inherited dct ⟨[], [], []⟩ with
  | .error e => .error e
  | .ok c =>
    match discoverGo selfId mod (mergeOwn inherited c.own)
        (c.raw ++ baseRaw) c.leftovers
        (responsibilities mod (mergeOwn inherited c.own)) with
    | .error e => .error e
    | .ok ms =>
      match c.leftovers with
      | (n, tag) :: _ => .error (.invalidProviderAttribute n tag)
      | [] =>
          .ok ⟨selfId, mod, mergeOwn inherited c.own, c.raw ++ baseRaw, ms⟩

/-- Modelled from the spec: provider construction
(ProviderType.__init__): step 1 checks that an explicit base provider targets
the same module (BaseProviderProvidesFromADifferentModule otherwise) and
inherits its resource and raw method tables, re-owned; then the body is
validated by the remaining pipeline steps. -/
def defineProvider (selfId : Nat) (mod : ModuleV) (base : Option ProviderV)
    (dct : List (String × PDctValue)) : Except ProviderError ProviderV :=
  match base with
  | none => build selfId mod [] [] dct
  | some b =>
      if b.module.id != mod.id then
        .error (.baseProviderProvidesFromADifferentModule b.id mod.id)
      else build selfId mod (b.ownResources.map (reown selfId)) b.rawMethods dct

/-- Modelled from the spec: subclassing a provider without naming a module
inherits the base module binding. -/
def defineSubProvider (selfId : Nat) (base : ProviderV)
    (dct : List (String × PDctValue)) : Except ProviderError ProviderV :=
  defineProvider selfId base.module (some base) dct

/-- Modelled from the spec: assigning to the module attribute of a
constructed provider always fails (ProviderModuleCantBeChanged), leaving the
binding immutable. -/
def setProviderModule (p : ProviderV) (assignedTo : Nat) :
    Except ProviderError ProviderV :=
  .error (.providerModuleCantBeChanged p.id assignedTo)

/-- A base class fixture, standing for SomeBaseClass of the tests. -/
def T0 : Ty := ⟨0, []⟩

/-- A subclass of T0, standing for SomeConcreteClass of the tests. -/
def T1 : Ty := ⟨1, [0]⟩

/-- A subclass of T1, standing for MoreConcreteClass of the tests. -/
def T2 : Ty := ⟨2, [1, 0]⟩

/-- The int class fixture. -/
def intTy : Ty := ⟨10, []⟩

/-- A module with a single resource a of type int. -/
def modA : ModuleV := ⟨0, [⟨"a", intTy, 0⟩], none⟩

/-- A module with resources a and b, both of type int. -/
def modAB : ModuleV := ⟨0, [⟨"a", intTy, 0⟩, ⟨"b", intTy, 0⟩], none⟩

/-- A module with a single resource a of the base class type T0. -/
def modBase : ModuleV := ⟨0, [⟨"a", T0, 0⟩], none⟩

/-- A module with no resources. -/
def modEmpty : ModuleV := ⟨5, [], none⟩

/-- The provider produced by defining, over the empty module, a private
resource a of type int with its producer. -/
def basePA : ProviderV :=
  ⟨1, modEmpty, [⟨"a", intTy, 1, .priv⟩], [("provide_a", ⟨[], some intTy⟩)],
    [⟨.p ⟨"a", intTy, 1, .priv⟩, intTy, []⟩]⟩

/-- The provider produced by defining, over the empty module, a private
resource some of type T0 with its producer. -/
def baseSome : ProviderV :=
  ⟨1, modEmpty, [⟨"some", T0, 1, .priv⟩],
    [("provide_some", ⟨[], some T0⟩)],
    [⟨.p ⟨"some", T0, 1, .priv⟩, T0, []⟩]⟩

/-- Successful construction fixes the fields of the resulting provider: the
module binding is the given module, the own resources and raw methods are the
merged tables, and the methods come from a successful discovery pass. -/
theorem build_ok_fields (selfId : Nat) (mod : ModuleV) (inherited : List PRes)
    (baseRaw : List (String × Method)) (dct : List (String × PDctValue))
    (p : ProviderV) (h : build selfId mod inherited baseRaw dct = .ok p) :
    p.module = mod ∧
    ∃ c, collectOwn selfId mod inherited dct ⟨[], [], []⟩ = .ok c ∧
      p.ownResources = mergeOwn inherited c.own ∧
      p.rawMethods = c.raw ++ baseRaw ∧
      discoverGo selfId mod (mergeOwn inherited c.own) (c.raw ++ baseRaw)
        c.leftovers (responsibilities mod (mergeOwn inherited c.own))
        = .ok p.methods := by
  unfold build at h
  split at h
  next e heq => exact Except.noConfusion h
  next c heq =>
    split at h
    next e heq2 => exact Except.noConfusion h
    next ms heq2 =>
      split at h
      next n tag tl heq3 => exact Except.noConfusion h
      next heq3 =>
        injection h with hp
        subst hp
        exact ⟨rfl, c, heq, rfl, rfl, heq2⟩

/-- A successful provider definition comes from a successful build pass over
some inheritance data. -/
theorem defineProvider_ok_build (selfId : Nat) (mod : ModuleV)
    (base : Option ProviderV) (dct : List (String × PDctValue))
    (p : ProviderV) (h : defineProvider selfId mod base dct = .ok p) :
    ∃ inh braw, build selfId mod inh braw dct = .ok p := by
  cases base with
  | none => exact ⟨[], [], h⟩
  | some b =>
    simp only [defineProvider] at h
    split at h
    next => exact Except.noConfusion h
    next => exact ⟨_, _, h⟩

/-- A resource found by visible-name lookup is an own resource or a module
resource. -/
theorem findVisibleByName_mem (mod : ModuleV) (own : List PRes)
    (pname : String) (dep : AnyRes)
    (h : findVisibleByName mod own pname = some dep) :
    (∃ q, q ∈ own ∧ dep = .p q) ∨
    (∃ r, r ∈ mod.resources ∧ dep = .m r) := by
  unfold findVisibleByName at h
  split at h
  next q hfo =>
    injection h with h2
    exact Or.inl ⟨q, List.mem_of_find?_eq_some hfo, h2.symm⟩
  next hfo =>
    split at h
    next r hfm =>
      injection h with h2
      exact Or.inr ⟨r, List.mem_of_find?_eq_some hfm, h2.symm⟩
    next hfm => exact Option.noConfusion h

/-- A successful discovery pass found a callable for every responsibility. -/
theorem discoverGo_ok_covers (selfId : Nat) (mod : ModuleV) (own : List PRes)
    (raw : List (String × Method)) (leftovers : List (String × Nat))
    (l : List Resp) (ms : List ProviderMethodV)
    (h : discoverGo selfId mod own raw leftovers l = .ok ms) :
    ∀ resp ∈ l, (raw.lookup ("provide_" ++ resp.key.name)).isSome := by
  induction l generalizing ms with
  | nil => intro resp hr; cases hr
  | cons first rest ih =>
    intro resp hr
    unfold discoverGo at h
    split at h
    next mth hl =>
      rcases List.mem_cons.mp hr with rfl | hr2
      · simp [hl]
      · split at h
        next e hv => exact Except.noConfusion h
        next pm hv =>
          split at h
          next e hrest => exact Except.noConfusion h
          next pms hrest => exact ih pms hrest resp hr2
    next hl =>
      split at h <;> exact Except.noConfusion h

/-- Claim C9: calling a Module class with any combination of positional or
keyword arguments raises ModulesCannotBeInstantiated and never produces an
instance (the result type is empty on success), and in this pure embedding
the module value, with its resource table and default provider, is only read,
never altered. -/
theorem modules_cannot_be_instantiated (m : ModuleV) (args : List Nat)
    (kwargs : List (String × Nat)) :
    moduleCall m args kwargs = .error (.modulesCannotBeInstantiated m.id) := by
  cases args <;> cases kwargs <;> rfl

/-- Claim C7: setting default_provider succeeds exactly for a provider class
that targets this module, after which the getter returns it; a non-provider
fails with DefaultProviderIsNotAProvider, the abstract base Provider fails
with CannotUseBaseProviderAsDefaultProvider, and a provider of another module
fails with DefaultProviderProvidesToAnotherModule, each failure returning an
error with no new module value, so default_provider is unchanged. -/
theorem default_provider_setter_guards (m : ModuleV) (tag pid pmod : Nat) :
    set_default_provider m (.notProvider tag)
      = .error (.defaultProviderIsNotAProvider m.id tag)
    ∧ set_default_provider m .baseProvider
      = .error (.cannotUseBaseProviderAsDefaultProvider m.id)
    ∧ (pmod ≠ m.id →
        set_default_provider m (.provider pid pmod)
          = .error (.defaultProviderProvidesToAnotherModule m.id pid))
    ∧ set_default_provider m (.provider pid m.id)
        = .ok { m with defaultProvider := some pid }
    ∧ get_default_provider { m with defaultProvider := some pid } = some pid := by
  refine ⟨rfl, rfl, ?_, ?_, rfl⟩
  · intro h
    have hb : (pmod != m.id) = true := by simpa [bne_iff_ne] using h
    simp [set_default_provider, hb]
  · simp [set_default_provider]

/-- Witness for default_provider_setter_guards at a concrete module and a
provider of a different module. -/
theorem default_provider_setter_guards_witness :
    set_default_provider ⟨0, [], none⟩ (.provider 7 3)
      = .error (.defaultProviderProvidesToAnotherModule 0 7) :=
  (default_provider_setter_guards ⟨0, [], none⟩ 0 7 3).2.2.1 (by decide)

/-- Claim C10: a module class-body attribute with an underscore name, or with
a value that is neither a Resource instance nor a type, is silently skipped
and defines no module resource, while a provider rejects such an attribute
with InvalidProviderAttribute. -/
theorem module_body_skips_unrecognized_attributes (selfId : Nat)
    (name : String) (tag : Nat) (v : ModDctValue)
    (dct annotations : List (String × ModDctValue)) :
    collect_resources selfId ((name, .other tag) :: dct) annotations
      = collect_resources selfId dct annotations
    ∧ (startsUnderscore name = true →
        collect_resources selfId ((name, v) :: dct) annotations
          = collect_resources selfId dct annotations)
    ∧ defineProvider 1 ⟨0, [], none⟩ none [("a", .other 10)]
      = .error (.invalidProviderAttribute "a" 10) := by
  refine ⟨?_, ?_, by decide⟩
  · cases h : startsUnderscore name <;>
      simp [collect_resources, collect_dct, h]
  · intro h
    simp [collect_resources, collect_dct, h]

/-- Witness for module_body_skips_unrecognized_attributes: an
underscore-named type entry contributes nothing. -/
theorem module_body_skips_unrecognized_attributes_witness :
    collect_resources 0 [("_x", .typ ⟨3, []⟩)] []
      = collect_resources 0 [] [] :=
  (module_body_skips_unrecognized_attributes 0 "_x" 0 (.typ ⟨3, []⟩) [] []).2.1
    (by decide)

/-- Claim C6: a bound Resource is never rebound.  A bound module resource
listed in a second module body fails module construction with
CannotUseExistingModuleResource before any rebinding, the error carrying the
resource with its original binding; a bound module resource listed in a
provider body fails with CannotDefinePublicResourceInProvider, and a bound
resource of another provider fails with
ResourceDefinitionCannotReferOtherProvidersResource, the errors again
carrying the untouched original resource. -/
theorem bound_resources_are_never_rebound (selfId : Nat) (mod : ModuleV)
    (name : String) (t : Ty) (b : MBinding) (r : MRes) (q : PRes)
    (dct annotations : List (String × ModDctValue))
    (pdct : List (String × PDctValue)) :
    (startsUnderscore name = false →
      collect_resources selfId ((name, .moduleRes t (some b)) :: dct)
          annotations
        = .error (.cannotUseExistingModuleResource selfId name t b))
    ∧ (startsUnderscore name = false → name ≠ "module" → name ≠ "resources" →
        defineProvider selfId mod none ((name, .res (.boundModule r)) :: pdct)
          = .error (.cannotDefinePublicResourceInProvider name r.type))
    ∧ (startsUnderscore name = false → name ≠ "module" → name ≠ "resources" →
        defineProvider selfId mod none
            ((name, .res (.boundProvider q)) :: pdct)
          = .error (.resourceDefinitionCannotReferOtherProvidersResource
              name q)) := by
  refine ⟨?_, ?_, ?_⟩
  · intro h
    simp [collect_resources, collect_dct, h]
  · intro h h1 h2
    simp [defineProvider, build, collectOwn, classifyEntry,
      classifyResInstance, h, h1, h2]
  · intro h h1 h2
    simp [defineProvider, build, collectOwn, classifyEntry,
      classifyResInstance, h, h1, h2]

/-- Witness for bound_resources_are_never_rebound at concrete inputs. -/
theorem bound_resources_are_never_rebound_witness :
    collect_resources 3 [("a", .moduleRes intTy (some ⟨"a", 0⟩))] []
      = .error (.cannotUseExistingModuleResource 3 "a" intTy ⟨"a", 0⟩) :=
  (bound_resources_are_never_rebound 3 modEmpty "a" intTy ⟨"a", 0⟩
      ⟨"a", intTy, 0⟩ ⟨"a", intTy, 1, .priv⟩ [] [] []).1 (by decide)

/-- Claim C3: provider construction succeeds only when every resource the
provider is responsible for has a callable named provide_<name> in its method
table (so a missing producer can never surface at resolution time), and on a
concrete module resource without a producer it fails with
MissingProviderMethod, while a non-callable value under the producer name
fails with ProviderMethodNotCallable. -/
theorem provider_construction_requires_producers :
    (∀ selfId mod base dct p,
      defineProvider selfId mod base dct = Except.ok p →
      ∀ resp ∈ responsibilities mod p.ownResources,
        (p.rawMethods.lookup ("provide_" ++ resp.key.name)).isSome)
    ∧ defineProvider 1 modA none []
        = .error (.missingProviderMethod (.m ⟨"a", intTy, 0⟩))
    ∧ defineProvider 1 modA none [("provide_a", .other 10)]
      = .error (.providerMethodNotCallable (.m ⟨"a", intTy, 0⟩)) := by
  refine ⟨?_, by decide, by decide⟩
  intro selfId mod base dct p h resp hr
  obtain ⟨inh, braw, hb⟩ := defineProvider_ok_build _ _ _ _ _ h
  obtain ⟨-, c, -, hown, hraw, hd⟩ := build_ok_fields _ _ _ _ _ _ hb
  rw [hown] at hr
  rw [hraw]
  exact discoverGo_ok_covers _ _ _ _ _ _ _ hd resp hr

/-- Witness for provider_construction_requires_producers: the coverage
invariant evaluated on a concretely constructed provider. -/
theorem provider_construction_requires_producers_witness :
    ∀ resp ∈ responsibilities modEmpty basePA.ownResources,
      (basePA.rawMethods.lookup ("provide_" ++ resp.key.name)).isSome :=
  provider_construction_requires_producers.1 1 modEmpty none
    [("a", .typ intTy), ("provide_a", .method ⟨[], some intTy⟩)] basePA
    (by decide)

/-- Claim C4: a provider method must carry a return type annotation
(ProviderMethodMissingReturnTypeAnnotation otherwise) that satisfies the
compatibility predicate against the required type of the produced resource
(ProviderMethodReturnTypeMismatch otherwise); for an overriding resource the
required type is the override type, so a return type satisfying only the
wider module resource type fails construction. -/
theorem provider_method_return_type_checked_against_override :
    (∀ selfId mod own resp params,
      validateMethod selfId mod own resp ⟨params, none⟩
        = .error (.providerMethodMissingReturnType resp.display))
    ∧ (∀ selfId mod own resp params rt,
        is_compatible resp.reqType rt = false →
        validateMethod selfId mod own resp ⟨params, some rt⟩
          = .error (.providerMethodReturnTypeMismatch resp.display rt))
    ∧ (∀ own m p m0, (own.find? fun q => q.name == m.name) = some p →
        p.kind = .overriding m0 →
        respForModuleRes own m = ⟨.p p, .m m, p.type⟩)
    ∧ defineProvider 1 modBase none
        [("a", .res (.unboundOverriding T1)),
         ("provide_a", .method ⟨[], some T0⟩)]
      = .error (.providerMethodReturnTypeMismatch
          (.p ⟨"a", T1, 1, .overriding ⟨"a", T0, 0⟩⟩) T0) := by
  refine ⟨fun _ _ _ _ _ => rfl, ?_, ?_, by decide⟩
  · intro selfId mod own resp params rt h
    simp [validateMethod, h]
  · intro own m p m0 hfind hkind
    simp [respForModuleRes, hfind, hkind]

/-- Witness for provider_method_return_type_checked_against_override on a
concrete incompatible return type and a concrete override lookup. -/
theorem provider_method_return_type_checked_against_override_witness :
    validateMethod 1 modBase [] ⟨.m ⟨"a", T0, 0⟩, .m ⟨"a", T0, 0⟩, T0⟩
        ⟨[], some intTy⟩
      = .error (.providerMethodReturnTypeMismatch (.m ⟨"a", T0, 0⟩) intTy) :=
  provider_method_return_type_checked_against_override.2.1 1 modBase []
    ⟨.m ⟨"a", T0, 0⟩, .m ⟨"a", T0, 0⟩, T0⟩ [] intTy (by decide)

/-- Claim C5: a provider subclass inherits the base module binding (whatever
the body, a successful subclass definition has the base module), inherits and
re-owns the base resource and method table, and refining an inherited
resource to a narrower type re-validates the inherited producer against the
narrower type, failing with ProviderMethodReturnTypeMismatch when the
inherited return type no longer satisfies it. -/
theorem provider_subclass_inherits_and_revalidates :
    (∀ selfId base dct p, defineSubProvider selfId base dct = Except.ok p →
      p.module = base.module)
    ∧ defineProvider 1 modEmpty none
        [("a", .typ intTy), ("provide_a", .method ⟨[], some intTy⟩)]
      = .ok basePA
    ∧ defineSubProvider 2 basePA []
      = .ok ⟨2, modEmpty, [⟨"a", intTy, 2, .priv⟩],
          [("provide_a", ⟨[], some intTy⟩)],
          [⟨.p ⟨"a", intTy, 2, .priv⟩, intTy, []⟩]⟩
    ∧ defineProvider 1 modEmpty none
        [("some", .typ T0), ("provide_some", .method ⟨[], some T0⟩)]
      = .ok baseSome
    ∧ defineSubProvider 2 baseSome [("some", .typ T1)]
      = .error (.providerMethodReturnTypeMismatch
          (.p ⟨"some", T1, 2, .priv⟩) T0) := by
  refine ⟨?_, by decide, by decide, by decide, by decide⟩
  intro selfId base dct p h
  unfold defineSubProvider at h
  obtain ⟨inh, braw, hb⟩ := defineProvider_ok_build _ _ _ _ _ h
  exact (build_ok_fields _ _ _ _ _ _ hb).1

/-- Witness for provider_subclass_inherits_and_revalidates: the module
binding of a concretely constructed subclass. -/
theorem provider_subclass_inherits_and_revalidates_witness :
    (⟨2, modEmpty, [⟨"a", intTy, 2, .priv⟩],
        [("provide_a", ⟨[], some intTy⟩)],
        [⟨.p ⟨"a", intTy, 2, .priv⟩, intTy, []⟩]⟩ : ProviderV).module
      = basePA.module :=
  provider_subclass_inherits_and_revalidates.1 2 basePA [] _ (by decide)

/-- Claim C8: a provider method parameter resolving to a resource owned by a
different provider fails provider construction with
CannotDependOnResourceFromAnotherProvider carrying the target resource, the
foreign resource and the parameter name; and every successfully resolved
dependency is a resource of the provider itself or of its module. -/
theorem dependencies_stay_within_provider_and_module :
    (∀ selfId mod own target pname r, r.provider ≠ selfId →
      resolveParam selfId mod own target pname (.providerRes r)
        = .error (.cannotDependOnResourceFromAnotherProvider target r pname))
    ∧ (∀ selfId mod own target pname a dep,
        (∀ q ∈ own, q.provider = selfId) →
        (∀ r ∈ mod.resources, r.module = mod.id) →
        resolveParam selfId mod own target pname a = .ok dep →
        (∀ r, dep = .p r → r.provider = selfId) ∧
        (∀ r, dep = .m r → r.module = mod.id))
    ∧ defineProvider 2 ⟨1, [⟨"c", intTy, 1⟩], none⟩ none
        [("provide_c", .method
          ⟨[("b", some (.providerRes ⟨"b", intTy, 1, .priv⟩))], some intTy⟩)]
      = .error (.cannotDependOnResourceFromAnotherProvider
          (.m ⟨"c", intTy, 1⟩) ⟨"b", intTy, 1, .priv⟩ "b") := by
  refine ⟨?_, ?_, by decide⟩
  · intro selfId mod own target pname r h
    have hb : (r.provider == selfId) = false := by
      simpa [beq_iff_eq] using h
    simp [resolveParam, hb]
  · intro selfId mod own target pname a dep hown hmod h
    cases a with
    | moduleRes r =>
      simp only [resolveParam] at h
      split at h
      next hr =>
        injection h with h2
        subst h2
        refine ⟨fun q hq => ?_, fun q hq => ?_⟩
        · cases hq
        · cases hq
          exact beq_iff_eq.mp hr
      next hr => exact Except.noConfusion h
    | providerRes r =>
      simp only [resolveParam] at h
      split at h
      next hr =>
        injection h with h2
        subst h2
        refine ⟨fun q hq => ?_, fun q hq => ?_⟩
        · cases hq
          exact beq_iff_eq.mp hr
        · cases hq
      next hr => exact Except.noConfusion h
    | typ t =>
      simp only [resolveParam] at h
      split at h
      next dep2 hfv =>
        split at h
        next hc =>
          injection h with h2
          subst h2
          rcases findVisibleByName_mem _ _ _ _ hfv with
            ⟨q, hq, rfl⟩ | ⟨r, hr, rfl⟩
          · refine ⟨fun q2 hq2 => ?_, fun q2 hq2 => ?_⟩
            · cases hq2
              exact hown q hq
            · cases hq2
          · refine ⟨fun q2 hq2 => ?_, fun q2 hq2 => ?_⟩
            · cases hq2
            · cases hq2
              exact hmod r hr
        next hc => exact Except.noConfusion h
      next hfv => exact Except.noConfusion h
    | other tag =>
      simp only [resolveParam] at h
      exact Except.noConfusion h

/-- Witness for dependencies_stay_within_provider_and_module at a foreign
private resource and a successful name-match resolution. -/
theorem dependencies_stay_within_provider_and_module_witness :
    resolveParam 2 modEmpty [] (.m ⟨"c", intTy, 1⟩) "b"
        (.providerRes ⟨"b", intTy, 1, .priv⟩)
      = .error (.cannotDependOnResourceFromAnotherProvider
          (.m ⟨"c", intTy, 1⟩) ⟨"b", intTy, 1, .priv⟩ "b") :=
  dependencies_stay_within_provider_and_module.1 2 modEmpty []
    (.m ⟨"c", intTy, 1⟩) "b" ⟨"b", intTy, 1, .priv⟩ (by decide)

/-- Claim C1 counterexample: in a provider for a module whose single resource
a has type int, the declared type of parameter b of provide_a exactly matches
the type of exactly one visible resource, yet construction fails with
ProviderMethodParameterUnrelatedName instead of binding the dependency to
that resource, exactly as the repository test
test_provider_method_must_either_match_by_resource_or_by_name requires. -/
theorem typeMatch_alone_does_not_bind :
    ((modA.resources.filter fun r => r.type == intTy).length = 1)
    ∧ defineProvider 1 modA none
        [("provide_a", .method ⟨[("b", some (.typ intTy))], some intTy⟩)]
      = .error (.providerMethodParameterUnrelatedName
          (.m ⟨"a", intTy, 0⟩) "b" intTy) := by
  exact ⟨by decide, by decide⟩

/-- Claim C1 amended: dependency resolution is deterministic but has no
type-based matching step: a parameter annotated with a bound module resource
of the target module binds directly to it; a parameter annotated with a plain
type binds to the visible resource matching the parameter name when the
annotated type is a supertype of or equal to the resource type, fails with
ProviderMethodParameterMatchesResourceNameButNotType when the name matches
but the type does not, and fails with ProviderMethodParameterUnrelatedName
when no visible resource has the parameter name, regardless of any type
coincidence; name matching binds end to end in a concrete provider. -/
theorem dependency_resolution_by_instance_or_name :
    (∀ selfId mod own target pname t,
      (own.find? fun q => q.name == pname) = none →
      (mod.resources.find? fun r => r.name == pname) = none →
      resolveParam selfId mod own target pname (.typ t)
        = .error (.providerMethodParameterUnrelatedName target pname t))
    ∧ (∀ selfId mod own target pname t q,
        (own.find? fun q2 => q2.name == pname) = some q →
        is_compatible t q.type = true →
        resolveParam selfId mod own target pname (.typ t) = .ok (.p q))
    ∧ (∀ selfId mod own target pname t r,
        (own.find? fun q => q.name == pname) = none →
        (mod.resources.find? fun q => q.name == pname) = some r →
        (is_compatible t r.type = true →
          resolveParam selfId mod own target pname (.typ t) = .ok (.m r))
        ∧ (is_compatible t r.type = false →
          resolveParam selfId mod own target pname (.typ t)
            = .error (.providerMethodParameterMatchesResourceNameButNotType
                target pname (.m r) t)))
    ∧ (∀ selfId mod own target pname r, r.module = mod.id →
        resolveParam selfId mod own target pname (.moduleRes r) = .ok (.m r))
    ∧ defineProvider 1 modAB none
        [("provide_a", .method ⟨[("b", some (.typ intTy))], some intTy⟩),
         ("provide_b", .method ⟨[], some intTy⟩)]
      = .ok ⟨1, modAB, [],
          [("provide_a", ⟨[("b", some (.typ intTy))], some intTy⟩),
           ("provide_b", ⟨[], some intTy⟩)],
          [⟨.m ⟨"a", intTy, 0⟩, intTy, [("b", .m ⟨"b", intTy, 0⟩)]⟩,
           ⟨.m ⟨"b", intTy, 0⟩, intTy, []⟩]⟩ := by
  refine ⟨?_, ?_, ?_, ?_, by decide⟩
  · intro selfId mod own target pname t ho hm
    simp [resolveParam, findVisibleByName, ho, hm]
  · intro selfId mod own target pname t q hq hc
    simp [resolveParam, findVisibleByName, hq, hc, AnyRes.type]
  · intro selfId mod own target pname t r ho hm
    constructor <;> intro hc <;>
      simp [resolveParam, findVisibleByName, ho, hm, hc, AnyRes.type]
  · intro selfId mod own target pname r hr
    simp [resolveParam, hr]

/-- Witness for dependency_resolution_by_instance_or_name: a type-matching
but name-unmatched parameter resolves to the unrelated-name error. -/
theorem dependency_resolution_by_instance_or_name_witness :
    resolveParam 1 modA [] (.m ⟨"a", intTy, 0⟩) "b" (.typ intTy)
      = .error (.providerMethodParameterUnrelatedName
          (.m ⟨"a", intTy, 0⟩) "b" intTy) :=
  dependency_resolution_by_instance_or_name.1 1 modA [] (.m ⟨"a", intTy, 0⟩)
    "b" intTy (by decide) (by decide)

/-- Claim C2 counterexample: a provider declaring an overriding resource with
exactly the type of the overridden module resource (an equal, not strictly
narrower, type) is constructed successfully instead of failing with
OverridingResourceIncompatibleType. -/
theorem equal_type_override_is_accepted :
    is_compatible T0 T0 = true
    ∧ defineProvider 1 modBase none
        [("a", .typ T0), ("provide_a", .method ⟨[], some T0⟩)]
      = .ok ⟨1, modBase, [⟨"a", T0, 1, .overriding ⟨"a", T0, 0⟩⟩],
          [("provide_a", ⟨[], some T0⟩)],
          [⟨.m ⟨"a", T0, 0⟩, T0, []⟩]⟩ := by
  exact ⟨by decide, by decide⟩

/-- Claim C2 amended: the type of an overriding resource must be a subtype of
or equal to the overridden module resource type; a type that is neither
(wider or unrelated) fails provider construction with
OverridingResourceIncompatibleType, both for the implicit type-alias form and
for the explicit Resource override form. -/
theorem override_type_must_be_subtype_or_equal (selfId : Nat) (mod : ModuleV)
    (acc : Collected) (name : String) (t : Ty) (m : MRes)
    (h1 : startsUnderscore name = false) (h2 : name ≠ "module")
    (h3 : name ≠ "resources")
    (hm : (mod.resources.find? fun r => r.name == name) = some m) :
    (is_compatible m.type t = true →
      classifyEntry selfId mod [] acc name (.typ t)
        = .ok { acc with
            own := acc.own ++ [⟨name, t, selfId, .overriding m⟩] })
    ∧ (is_compatible m.type t = false →
        classifyEntry selfId mod [] acc name (.typ t)
          = .error (.overridingResourceIncompatibleType
              ⟨name, t, selfId, .overriding m⟩))
    ∧ (is_compatible m.type t = true →
        classifyResInstance selfId mod acc name (.unboundOverriding t)
          = .ok { acc with
              own := acc.own ++ [⟨name, t, selfId, .overriding m⟩] })
    ∧ (is_compatible m.type t = false →
        classifyResInstance selfId mod acc name (.unboundOverriding t)
          = .error (.overridingResourceIncompatibleType
              ⟨name, t, selfId, .overriding m⟩)) := by
  have hb2 : (name == "module") = false := by simpa [beq_iff_eq] using h2
  have hb3 : (name == "resources") = false := by simpa [beq_iff_eq] using h3
  refine ⟨?_, ?_, ?_, ?_⟩ <;> intro hc <;>
    simp [classifyEntry, classifyTypeAlias, classifyResInstance, h1, hb2,
      hb3, hm, hc]

/-- Witness for override_type_must_be_subtype_or_equal: a strictly narrower
override is collected. -/
theorem override_type_must_be_subtype_or_equal_witness :
    classifyEntry 1 modBase [] ⟨[], [], []⟩ "a" (.typ T1)
      = .ok ⟨[⟨"a", T1, 1, .overriding ⟨"a", T0, 0⟩⟩], [], []⟩ :=
  (override_type_must_be_subtype_or_equal 1 modBase ⟨[], [], []⟩ "a" T1
      ⟨"a", T0, 0⟩ (by decide) (by decide) (by decide) (by decide)).1
    (by decide)

end Wiring
